import Mathlib

/-!
Shallow embedding of `src/remote_dread_lua_console/lua_executor.py`.

Bytes are modelled as `Nat` (values kept below 256 by the wire format),
the TCP byte stream as a `List Nat` of all bytes the server will send
before closing the connection (short reads and EOF are the list running
out), Python exceptions as an explicit `PyError` type threaded through
`Except`, and the mutable fields of the `LuaExecutor` object as an
explicit `ExecutorState`.  Side effects that leave the session
(`writer.write`, `QTimer.singleShot`, `window_signals` emissions) are
recorded in the state so theorems can observe them.
-/

deriving instance DecidableEq for Except

/-- Python exception classes that appear in the executor.  `isCaught`
below reflects exactly the tuple caught by the `except` clauses in
`connect`, `run_lua_code` and `send_keep_alive`. -/
inductive PyError where
  | osError (msg : String)
  | timeoutError
  | structError
  | unicodeDecodeError
  | runtimeError (msg : String)
  | indexError
  | valueError (msg : String)
  | attributeError (msg : String)
  | overflowError
  | typeError (msg : String)
  | luaException (msg : String)
deriving DecidableEq, Repr

/-- The tuple `(OSError, asyncio.TimeoutError, struct.error, UnicodeError,
RuntimeError)` used by every `except` clause in `lua_executor.py`.
`LuaException` subclasses `Exception` directly, so it is not caught. -/
def PyError.isCaught : PyError → Bool
  | .osError _ => true
  | .timeoutError => true
  | .structError => true
  | .unicodeDecodeError => true
  | .runtimeError _ => true
  | _ => false

/-- `PacketType(IntEnum)` from the source.  The member values are written
as byte literals (`b'1'` …) there; `IntEnum` turns them into the
integers 1,2,3,4 via `int(b'1') == 1` etc. -/
inductive PacketType where
  | PACKET_HANDSHAKE
  | PACKET_LOG_MESSAGE
  | PACKET_REMOTE_LUA_EXEC
  | PACKET_KEEP_ALIVE
deriving DecidableEq, Repr

def PacketType.value : PacketType → Nat
  | .PACKET_HANDSHAKE => 1
  | .PACKET_LOG_MESSAGE => 2
  | .PACKET_REMOTE_LUA_EXEC => 3
  | .PACKET_KEEP_ALIVE => 4

/-- `ClientInterests.LOGGING` (`int(b'1') == 1`). -/
def ClientInterests.LOGGING : Nat := 1

/-- `DreadSocketHolder` minus the reader/writer handles (the reader is
modelled as the separate stream argument, writes are recorded in the
executor state). -/
structure DreadSocketHolder where
  api_version : Nat
  buffer_size : Nat
  request_number : Nat
deriving DecidableEq, Repr

/-- The mutable fields of `LuaExecutor`, plus logs of the observable
side effects:
* `written` — every byte handed to `writer.write`;
* `flush_timers_armed` — number of `QTimer.singleShot(200, log_for_window.emit)` calls;
* `connection_changed_emits` — number of `window_signals.connection_changed.emit()` calls. -/
structure ExecutorState where
  socket : Option DreadSocketHolder
  socket_error : Option PyError
  pending_messages : List String
  flush_timers_armed : Nat
  written : List Nat
  connection_changed_emits : Nat
deriving DecidableEq, Repr

def fresh_state : ExecutorState :=
  { socket := none, socket_error := none, pending_messages := []
    flush_timers_armed := 0, written := [], connection_changed_emits := 0 }

/-- `is_connected`: `self._socket is not None`. -/
def is_connected (st : ExecutorState) : Bool := st.socket.isSome

/-- `disconnect`: clears the socket reference, closes the writer (not
modelled — close errors are ignored) and emits `connection_changed`. -/
def disconnect (st : ExecutorState) : ExecutorState :=
  { st with socket := none, connection_changed_emits := st.connection_changed_emits + 1 }

/-- `emit_new_message`: `start_timer = len(self.pending_messages) > 0`
is computed BEFORE the append; a flush timer is armed only if it was
true. -/
def emit_new_message (st : ExecutorState) (new_message : String) : ExecutorState :=
  let start_timer := decide (st.pending_messages.length > 0)
  let st1 := { st with pending_messages := st.pending_messages ++ [new_message] }
  if start_timer then { st1 with flush_timers_armed := st1.flush_timers_armed + 1 } else st1

/-- Little-endian encoding of `n` on `k` bytes, the semantics of
`n.to_bytes(length=k, byteorder="little")` when it does not overflow. -/
def natToLE : Nat → Nat → List Nat
  | 0, _ => []
  | k + 1, n => (n % 256) :: natToLE k (n / 256)

/-- The little-endian value of a byte list (specification-side inverse
of `natToLE`, used to state what the 4 length bytes mean). -/
def leVal (bs : List Nat) : Nat := bs.foldr (fun b acc => b + 256 * acc) 0

/-- `n.to_bytes(length=k, byteorder="little")`: raises `OverflowError`
when `n` does not fit in `k` bytes. -/
def int_to_bytes_le (n : Nat) (k : Nat) : Except PyError (List Nat) :=
  if n < 256 ^ k then .ok (natToLE k n) else .error .overflowError

/-- `struct.unpack("<l", bs)[0]`: requires exactly 4 bytes
(`struct.error` otherwise) and decodes them as a signed 32-bit
little-endian integer. -/
def unpack_le_l (bs : List Nat) : Except PyError Int :=
  match bs with
  | [b0, b1, b2, b3] =>
    let u := b0 + 256 * b1 + 65536 * b2 + 16777216 * b3
    .ok (if u < 2 ^ 31 then (u : Int) else (u : Int) - 2 ^ 32)
  | _ => .error .structError

/-- `reader.read(n)` on the modelled stream: returns up to `n` bytes,
fewer only when the stream (connection) ends. -/
def stream_read (n : Nat) (s : List Nat) : List Nat × List Nat :=
  (s.take n, s.drop n)

/-- `reader.read(n)` with a possibly negative `n` (a negative count
makes `StreamReader.read` consume everything until EOF). -/
def stream_read_int (n : Int) (s : List Nat) : List Nat × List Nat :=
  if n < 0 then (s, []) else (s.take n.toNat, s.drop n.toNat)

/-- Standard UTF-8 encoding of one unicode scalar value. -/
def utf8_char (c : Char) : List Nat :=
  let n := c.toNat
  if n < 0x80 then [n]
  else if n < 0x800 then [0xC0 + n / 64, 0x80 + n % 64]
  else if n < 0x10000 then [0xE0 + n / 4096, 0x80 + n / 64 % 64, 0x80 + n % 64]
  else [0xF0 + n / 262144, 0x80 + n / 4096 % 64, 0x80 + n / 64 % 64, 0x80 + n % 64]

/-- `code.encode("utf-8")` as a list of byte values. -/
def utf8_encode (s : String) : List Nat :=
  s.data.flatMap utf8_char

/-- `bs.decode("ascii")`: fails with `UnicodeDecodeError` on any byte
out of the 7-bit range. -/
def ascii_decode (bs : List Nat) : Except PyError String :=
  if bs.all (fun b => b < 128) then .ok (String.mk (bs.map Char.ofNat))
  else .error .unicodeDecodeError

/-- Python `str.split(sep)` for a one-character separator (an empty
string yields one empty part, like Python). -/
def splitOnChar (c : Char) : List Char → List (List Char)
  | [] => [[]]
  | x :: xs =>
    let r := splitOnChar c xs
    if x = c then [] :: r
    else
      match r with
      | [] => [[x]]
      | y :: ys => (x :: y) :: ys

/-- The f-string rendering of a Python `bytes` value (`f"{data}"`,
`str(data)`); the exact repr text is modelled as the byte list's
string form. -/
def str_of_bytes (bs : List Nat) : String := toString bs

/-- `build_packet`: `[type.value]`, then for `PACKET_REMOTE_LUA_EXEC`
the 4-byte little-endian length of `msg`, then for exec/handshake the
`msg` bytes themselves.  `type` is a Python builtin shadowed by the
parameter name; `msg=None` in a branch that uses it would be a
`TypeError` (never reached by the callers). -/
def build_packet (t : PacketType) (msg : Option (List Nat)) : Except PyError (List Nat) :=
  match t, msg with
  | .PACKET_REMOTE_LUA_EXEC, some m =>
    match int_to_bytes_le m.length 4 with
    | .error e => .error e
    | .ok lenBytes => .ok (PacketType.PACKET_REMOTE_LUA_EXEC.value :: (lenBytes ++ m))
  | .PACKET_REMOTE_LUA_EXEC, none => .error (.typeError "len of None")
  | .PACKET_HANDSHAKE, some m => .ok (PacketType.PACKET_HANDSHAKE.value :: m)
  | .PACKET_HANDSHAKE, none => .error (.typeError "bytearray extend of None")
  | .PACKET_LOG_MESSAGE, _ => .ok [PacketType.PACKET_LOG_MESSAGE.value]
  | .PACKET_KEEP_ALIVE, _ => .ok [PacketType.PACKET_KEEP_ALIVE.value]

/-- `check_header`: reads one byte (`received_number[0]` on an
EOF-empty read is an `IndexError`) and raises `RuntimeError` when it
differs from the expected `request_number`.  It never mutates the
executor state; accessing `self._socket.reader` with no socket is an
`AttributeError`. -/
def check_header (st : ExecutorState) (stream : List Nat) : Except PyError Unit × List Nat :=
  match st.socket with
  | none => (.error (.attributeError "reader"), stream)
  | some sock =>
    match stream with
    | [] => (.error .indexError, stream)
    | b :: rest =>
      if b = sock.request_number then (.ok (), rest)
      else (.error (.runtimeError "request number mismatch"), rest)

/-- `read_packet_type`: one `reader.read(1)` (empty at EOF, no error
yet). -/
def read_packet_type (st : ExecutorState) (s : List Nat) : Except PyError (List Nat) × List Nat :=
  match st.socket with
  | none => (.error (.attributeError "reader"), s)
  | some _ => (.ok (s.take 1), s.drop 1)

/-- `parse_packet`, the decode state machine.  `match packet_type[0]`
on an empty read is an `IndexError`.  The handshake and exec branches
validate the request number and then increment it mod 256; the exec
branch reads `[successFlag][len:3]` as one 4-byte read, zero-pads the
3 length bytes and decodes them with `struct.unpack("<l", ...)`, reads
the payload, and on failure returns the 4 header bytes (the `response`
variable is not reassigned in that branch). -/
def parse_packet (packet_type : List Nat) (st : ExecutorState) (stream : List Nat) :
    Except PyError (Option (List Nat)) × ExecutorState × List Nat :=
  match packet_type with
  | [] => (.error .indexError, st, stream)
  | pt :: _ =>
    if pt = PacketType.PACKET_HANDSHAKE.value then
      match st.socket, check_header st stream with
      | _, (.error e, s1) => (.error e, st, s1)
      | none, (.ok _, s1) => (.error (.attributeError "request_number"), st, s1)
      | some sock, (.ok _, s1) =>
        (.ok none,
         { st with socket := some { sock with request_number := (sock.request_number + 1) % 256 } },
         s1)
    else if pt = PacketType.PACKET_REMOTE_LUA_EXEC.value then
      match st.socket, check_header st stream with
      | _, (.error e, s1) => (.error e, st, s1)
      | none, (.ok _, s1) => (.error (.attributeError "request_number"), st, s1)
      | some sock, (.ok _, s1) =>
        let st1 := { st with socket := some { sock with request_number := (sock.request_number + 1) % 256 } }
        let rd := stream_read 4 s1
        match rd.1 with
        | [] => (.error .indexError, st1, rd.2)
        | r0 :: _ =>
          match unpack_le_l (rd.1.drop 1 ++ [0]) with
          | .error e => (.error e, st1, rd.2)
          | .ok len =>
            let dd := stream_read_int len rd.2
            if r0 ≠ 0 then
              (.ok (some dd.1),
               emit_new_message st1 ("Execute response: " ++ str_of_bytes dd.1), dd.2)
            else
              (.ok (some rd.1),
               emit_new_message st1 "Running lua code throw an error. Check your code.", dd.2)
    else if pt = PacketType.PACKET_LOG_MESSAGE.value then
      match st.socket with
      | none => (.error (.attributeError "reader"), st, stream)
      | some _ =>
        let rd := stream_read 4 stream
        match unpack_le_l (rd.1.take 4) with
        | .error e => (.error e, st, rd.2)
        | .ok len =>
          let dd := stream_read_int len rd.2
          (.ok (some dd.1), emit_new_message st ("Log: " ++ str_of_bytes dd.1), dd.2)
    else (.ok none, st, stream)

/-- `_read_response`: one packet-type read followed by `parse_packet`. -/
def read_response (st : ExecutorState) (s : List Nat) :
    Except PyError (Option (List Nat)) × ExecutorState × List Nat :=
  match read_packet_type st s with
  | (.error e, s1) => (.error e, st, s1)
  | (.ok pt, s1) => parse_packet pt st s1

/-- One iteration of `read_loop`.  The loop body has no exception
handler, so any error from `_read_response` crashes the task, leaving
the executor state as it was at the point of the raise. -/
inductive LoopStep where
  | exited
  | continued (st : ExecutorState) (s : List Nat)
  | crashed (e : PyError) (st : ExecutorState) (s : List Nat)
deriving DecidableEq, Repr

def read_loop_step (st : ExecutorState) (s : List Nat) : LoopStep :=
  if is_connected st then
    match read_response st s with
    | (.error e, st1, s1) => .crashed e st1 s1
    | (.ok _, st1, s1) => .continued st1 s1
  else .exited

/-- The Lua probe sent by `connect` (byte literal in the source). -/
def probe_code : String :=
  "return string.format(\x27%d,%d,%s\x27, RL.Version, RL.BufferSize, tostring(RL.Bootstrap))"

/-- The body of `connect`'s `try:` block, for a connection that opens
successfully (failures of `open_connection` itself raise `OSError`,
which the except clause catches like the other caught errors).  The ip
does not change during the modelled call, so the final
`raise RuntimeError("changed ip during connection")` guard never
fires.  Note the probe reply is parsed into LOCAL variables
(`api_version, buffer_size, boostrap`) that are only logged — the
holder keeps the values it was constructed with. -/
def connect_body (st : ExecutorState) (stream : List Nat) :
    Except PyError Bool × ExecutorState × List Nat :=
  let st1 := { st with socket_error := none,
                       socket := some { api_version := 1, buffer_size := 4096, request_number := 0 } }
  match build_packet .PACKET_HANDSHAKE (some [ClientInterests.LOGGING]) with
  | .error e => (.error e, st1, stream)
  | .ok pkt =>
    let st2 := { st1 with written := st1.written ++ pkt }
    match read_response st2 stream with
    | (.error e, st3, s1) => (.error e, st3, s1)
    | (.ok _, st3, s1) =>
      match build_packet .PACKET_REMOTE_LUA_EXEC (some (utf8_encode probe_code)) with
      | .error e => (.error e, st3, s1)
      | .ok pkt2 =>
        let st4 := { st3 with written := st3.written ++ pkt2 }
        match read_response st4 s1 with
        | (.error e, st5, s2) => (.error e, st5, s2)
        | (.ok response, st5, s2) =>
          match response with
          | none => (.error (.attributeError "decode of None"), st5, s2)
          | some bs =>
            match ascii_decode bs with
            | .error e => (.error e, st5, s2)
            | .ok str =>
              if (splitOnChar ',' str.data).length = 3 then (.ok true, st5, s2)
              else (.error (.valueError "not enough values to unpack"), st5, s2)

/-- `connect`: returns true immediately when already connected;
otherwise runs the body and catches exactly the tuple
`(OSError, asyncio.TimeoutError, struct.error, UnicodeError,
RuntimeError)` — on a caught error it clears the socket, records the
error and returns false; any other exception escapes to the caller
with whatever state the body had built. -/
def connect (st : ExecutorState) (stream : List Nat) :
    Except PyError Bool × ExecutorState × List Nat :=
  if st.socket.isSome then (.ok true, st, stream)
  else
    match connect_body st stream with
    | (.ok b, st1, s1) => (.ok b, st1, s1)
    | (.error e, st1, s1) =>
      if e.isCaught then
        (.ok false, { st1 with socket := none, socket_error := some e }, s1)
      else (.error e, st1, s1)

/-- `run_lua_code`: evaluates `self._socket.writer` (an
`AttributeError` when disconnected, raised before anything else),
builds and writes the exec request, then drains.  `drain_error`
injects a possible write/drain failure; a caught failure is wrapped in
`LuaException`, recorded, and re-raised after `disconnect()`.  The
function body has NO return statement, so on success it returns
Python's implicit `None`. -/
def run_lua_code (st : ExecutorState) (code : String) (drain_error : Option PyError) :
    Except PyError (Option (List Nat)) × ExecutorState :=
  match st.socket with
  | none => (.error (.attributeError "writer"), st)
  | some _ =>
    match build_packet .PACKET_REMOTE_LUA_EXEC (some (utf8_encode code)) with
    | .error e => (.error e, st)
    | .ok pkt =>
      let st1 := { st with written := st.written ++ pkt }
      match drain_error with
      | none => (.ok none, st1)
      | some e =>
        if e.isCaught then
          (.error (.luaException "Unable to send lua code"),
           disconnect { st1 with socket_error := some (.luaException "Unable to send lua code") })
        else (.error e, st1)

/-- Result of one `send_keep_alive` loop iteration resumed after
`asyncio.sleep(2)`. -/
inductive KeepAliveStep where
  | continued (st : ExecutorState)
  | crashed (e : PyError) (st : ExecutorState)
deriving DecidableEq, Repr

/-- The `send_keep_alive` loop body from the point where
`asyncio.sleep(2)` returns (a concurrent `disconnect()` may have run
during the sleep; `st` is the state at wake-up).  The
`self._socket.writer.write(...)` line sits OUTSIDE the `try:` block,
so an `AttributeError` from a cleared socket is unhandled and kills
the task.  A caught drain failure records a `LuaException`, emits
"Connection lost" and disconnects; the loop then re-checks
`is_connected` and exits. -/
def keep_alive_after_sleep (st : ExecutorState) (drain_error : Option PyError) : KeepAliveStep :=
  match st.socket with
  | none => .crashed (.attributeError "writer") st
  | some _ =>
    match build_packet .PACKET_KEEP_ALIVE none with
    | .error e => .crashed e st
    | .ok pkt =>
      let st1 := { st with written := st.written ++ pkt }
      match drain_error with
      | none => .continued st1
      | some e =>
        if e.isCaught then
          .continued (disconnect (emit_new_message
            { st1 with socket_error := some (.luaException "Unable to send keep-alive") }
            "Connection lost"))
        else .crashed e st1

/-- A freshly connected session as `connect` builds it (socket holder
`(api_version=1, buffer_size=4096, request_number=0)`). -/
def conn0 : ExecutorState :=
  { fresh_state with socket := some { api_version := 1, buffer_size := 4096, request_number := 0 } }

/-- The state after `connect` initialises the socket holder and then N
valid handshake request/response cycles are consumed (the base case is
the real `connect` run against a stream that ends immediately, whose
uncaught failure leaves the pristine holder in place). -/
def state_after_cycles : Nat → ExecutorState
  | 0 => (connect fresh_state []).2.1
  | n + 1 =>
    let st := state_after_cycles n
    match st.socket with
    | some sock => (read_response st [1, sock.request_number]).2.1
    | none => st

/-- The view of the socket holder fields that the probe reply was
supposed to update. -/
def sockView (k : DreadSocketHolder) : Nat × Nat := (k.api_version, k.buffer_size)

/-- Stub stream for the C3 scenario: handshake ack `[1,0]`, then an
exec response `[3][req=1][success=1][len=11,0,0]"3,4096,true"`. -/
def c3_stream : List Nat := [1, 0, 3, 1, 1, 11, 0, 0] ++ utf8_encode "3,4096,true"

/-- Stub reply for the C1 scenario: exec response
`[3][req=0][success=1][len=1,0,0]"2"`. -/
def c1_reply : List Nat := [3, 0, 1, 1, 0, 0] ++ utf8_encode "2"

/-- Stub reply for the C2 scenario: exec response
`[3][req=0][success=0][len=12,0,0]"syntax error"`. -/
def c2_reply : List Nat := [3, 0, 0, 12, 0, 0] ++ utf8_encode "syntax error"

/-- Stub stream for the C6 scenario: one log packet
`[2][len=5,0,0,0]"hello"`. -/
def c6_stream : List Nat := [2, 5, 0, 0, 0] ++ utf8_encode "hello"

theorem take_len_append {α : Type} (l1 l2 : List α) : (l1 ++ l2).take l1.length = l1 := by
  induction l1 with
  | nil => simp
  | cons a t ih => simp [ih]

theorem drop_len_append {α : Type} (l1 l2 : List α) : (l1 ++ l2).drop l1.length = l2 := by
  induction l1 with
  | nil => simp
  | cons a t ih => simp [ih]

theorem take_append_of_length {α : Type} {l1 : List α} (l2 : List α) (n : Nat)
    (h : l1.length = n) : (l1 ++ l2).take n = l1 := by
  subst h; exact take_len_append l1 l2

theorem drop_append_of_length {α : Type} {l1 : List α} (l2 : List α) (n : Nat)
    (h : l1.length = n) : (l1 ++ l2).drop n = l2 := by
  subst h; exact drop_len_append l1 l2

theorem natToLE_length (k n : Nat) : (natToLE k n).length = k := by
  induction k generalizing n with
  | zero => simp [natToLE]
  | succ k ih => simp [natToLE, ih]

theorem unpack_natToLE3 (n : Nat) (h : n < 2 ^ 24) :
    unpack_le_l (natToLE 3 n ++ [0]) = .ok (n : Int) := by
  simp only [natToLE, unpack_le_l, List.cons_append, List.nil_append]
  have e1 : n % 256 + 256 * (n / 256 % 256) + 65536 * (n / 256 / 256 % 256) + 16777216 * 0 = n := by
    omega
  rw [e1]
  rw [if_pos (by omega)]

theorem handshake_read (st : ExecutorState) (sock : DreadSocketHolder) (rest : List Nat)
    (hs : st.socket = some sock) :
    read_response st (1 :: sock.request_number :: rest) =
      (.ok none,
       { st with socket := some { sock with request_number := (sock.request_number + 1) % 256 } },
       rest) := by
  simp [read_response, read_packet_type, parse_packet, check_header, hs, PacketType.value]

theorem exec_success_read (st : ExecutorState) (sock : DreadSocketHolder) (payload rest : List Nat)
    (hs : st.socket = some sock) (hp : payload.length < 2 ^ 24) :
    read_response st (3 :: sock.request_number :: 1 :: (natToLE 3 payload.length ++ (payload ++ rest))) =
      (.ok (some payload),
       emit_new_message
         { st with socket := some { sock with request_number := (sock.request_number + 1) % 256 } }
         ("Execute response: " ++ str_of_bytes payload),
       rest) := by
  have h3 : (natToLE 3 payload.length).length = 3 := natToLE_length 3 _
  have hu := unpack_natToLE3 payload.length hp
  simp only [read_response, read_packet_type, parse_packet, check_header, hs, PacketType.value,
    stream_read, stream_read_int]
  simp only [List.take, List.drop, if_pos rfl]
  norm_num
  rw [take_append_of_length _ 3 h3, drop_append_of_length _ 3 h3, hu]
  have hne : ¬ ((payload.length : Int) < 0) := by omega
  simp only [hne, if_false, Int.toNat_natCast, take_len_append, drop_len_append]
  have e4 : natToLE 3 payload.length ++ (payload ++ rest) =
      (natToLE 3 payload.length ++ payload) ++ rest := (List.append_assoc _ _ _).symm
  rw [e4, drop_append_of_length rest (3 + payload.length) (by simp [h3])]

theorem exec_fail_read (st : ExecutorState) (sock : DreadSocketHolder) (payload rest : List Nat)
    (hs : st.socket = some sock) (hp : payload.length < 2 ^ 24) :
    read_response st (3 :: sock.request_number :: 0 :: (natToLE 3 payload.length ++ (payload ++ rest))) =
      (.ok (some (0 :: natToLE 3 payload.length)),
       emit_new_message
         { st with socket := some { sock with request_number := (sock.request_number + 1) % 256 } }
         "Running lua code throw an error. Check your code.",
       rest) := by
  have h3 : (natToLE 3 payload.length).length = 3 := natToLE_length 3 _
  have hu := unpack_natToLE3 payload.length hp
  simp only [read_response, read_packet_type, parse_packet, check_header, hs, PacketType.value,
    stream_read, stream_read_int]
  simp only [List.take, List.drop, if_pos rfl]
  norm_num
  rw [take_append_of_length _ 3 h3, drop_append_of_length _ 3 h3, hu]
  have hne : ¬ ((payload.length : Int) < 0) := by omega
  simp only [hne, if_false, Int.toNat_natCast, take_len_append, drop_len_append]
  have e4 : natToLE 3 payload.length ++ (payload ++ rest) =
      (natToLE 3 payload.length ++ payload) ++ rest := (List.append_assoc _ _ _).symm
  rw [e4, drop_append_of_length rest (3 + payload.length) (by simp [h3])]

theorem emit_socket (st : ExecutorState) (m : String) :
    (emit_new_message st m).socket = st.socket := by
  simp only [emit_new_message]
  split <;> rfl

theorem parse_socket_view (packet_type : List Nat) (st : ExecutorState) (stream : List Nat) :
    ((parse_packet packet_type st stream).2.1).socket.map sockView = st.socket.map sockView := by
  unfold parse_packet
  repeat' split
  all_goals simp_all [emit_socket, sockView]
  all_goals repeat' split
  all_goals simp_all [emit_socket, sockView]

theorem read_response_socket_view (st : ExecutorState) (s : List Nat) :
    ((read_response st s).2.1).socket.map sockView = st.socket.map sockView := by
  unfold read_response read_packet_type
  repeat' split
  all_goals simp_all [parse_socket_view]

theorem read_response_view_of_eq {st st' : ExecutorState} {s s' : List Nat}
    {r : Except PyError (Option (List Nat))} (h : read_response st s = (r, st', s')) :
    st'.socket.map sockView = st.socket.map sockView := by
  have hv := read_response_socket_view st s
  rw [h] at hv
  exact hv

theorem connect_body_cases (st : ExecutorState) (s : List Nat) :
    ((connect_body st s).1 = .ok true ∧
     (connect_body st s).2.1.socket.map sockView = some (1, 4096)) ∨
    (∃ e, (connect_body st s).1 = .error e) := by
  unfold connect_body
  simp only []
  repeat' split
  all_goals try (right; exact ⟨_, rfl⟩)
  all_goals (left; refine ⟨rfl, ?_⟩)
  rename_i x4 len1 heq4 x3 a st3 s1 heq3 x2 len2 heq2 x1 st5 s2 resp bs heqB x str heqD hsplit
  have v1 := read_response_view_of_eq heq3
  have v2 := read_response_view_of_eq heqB
  simp_all [sockView]

theorem connect_cases (st : ExecutorState) (s : List Nat) :
    ((connect st s).1 = .ok true) ∨
    ((connect st s).1 = .ok false ∧ (connect st s).2.1.socket = none ∧
       (∃ e, e.isCaught = true ∧ (connect st s).2.1.socket_error = some e)) ∨
    (∃ e, (connect st s).1 = .error e ∧ e.isCaught = false) := by
  unfold connect
  split
  · left; rfl
  rcases hb : connect_body st s with ⟨exc, st1, s1⟩
  cases exc with
  | ok b =>
    rcases connect_body_cases st s with ⟨h1, h2⟩ | ⟨e, he⟩
    · rw [hb] at h1
      simp only [] at h1
      left
      simp [hb, h1]
    · rw [hb] at he
      simp at he
  | error e =>
    by_cases hc : e.isCaught
    · right; left
      refine ⟨?_, ?_, ⟨e, hc, ?_⟩⟩ <;> simp [hb, hc]
    · right; right
      refine ⟨e, ?_, ?_⟩
      · simp [hb, hc]
      · simp [PyError.isCaught] at hc ⊢
        exact hc

theorem connect_true_view (st : ExecutorState) (s : List Nat) (hno : st.socket = none)
    (h : (connect st s).1 = .ok true) :
    (connect st s).2.1.socket.map sockView = some (1, 4096) := by
  unfold connect at h ⊢
  rw [hno] at h ⊢
  simp only [Option.isSome_none, Bool.false_eq_true, if_false] at h ⊢
  rcases hb : connect_body st s with ⟨exc, st1, s1⟩
  cases exc with
  | ok b =>
    rcases connect_body_cases st s with ⟨h1, h2⟩ | ⟨e, he⟩
    · rw [hb] at h2
      simp only [] at h2
      simpa using h2
    · rw [hb] at he
      simp at he
  | error e =>
    rw [hb] at h
    simp only [] at h
    by_cases hc : e.isCaught = true
    · simp [hc] at h
    · simp [hc] at h

theorem check_header_mismatch (st : ExecutorState) (sock : DreadSocketHolder) (b : Nat)
    (rest : List Nat) (hs : st.socket = some sock) (hb : b ≠ sock.request_number) :
    check_header st (b :: rest) = (.error (.runtimeError "request number mismatch"), rest) := by
  simp [check_header, hs, hb]

theorem read_loop_mismatch (st : ExecutorState) (sock : DreadSocketHolder) (b : Nat)
    (rest : List Nat) (hs : st.socket = some sock) (hb : b ≠ sock.request_number) :
    read_loop_step st (3 :: b :: rest) =
      .crashed (.runtimeError "request number mismatch") st rest := by
  simp [read_loop_step, is_connected, hs, read_response, read_packet_type, parse_packet,
    check_header, PacketType.value, hb]

theorem connect_mismatch (st : ExecutorState) (b : Nat) (rest : List Nat)
    (hno : st.socket = none) (hb : b ≠ 0) :
    (connect st (1 :: b :: rest)).1 = .ok false ∧
    (connect st (1 :: b :: rest)).2.1.socket = none ∧
    (connect st (1 :: b :: rest)).2.1.socket_error =
      some (.runtimeError "request number mismatch") := by
  unfold connect connect_body
  simp [hno, read_response, read_packet_type, parse_packet, check_header, build_packet,
    PacketType.value, ClientInterests.LOGGING, hb, PyError.isCaught]

theorem run_lua_ok (st : ExecutorState) (code : String) (hs : st.socket.isSome = true)
    (hlen : (utf8_encode code).length < 2 ^ 32) :
    (run_lua_code st code none).1 = .ok none := by
  have h4 : (utf8_encode code).length < 4294967296 := by
    calc (utf8_encode code).length < 2 ^ 32 := hlen
      _ = 4294967296 := by norm_num
  rcases ho : st.socket with _ | sock
  · rw [ho] at hs; simp at hs
  · simp [run_lua_code, ho, build_packet, int_to_bytes_le, h4]

theorem leVal_natToLE (k n : Nat) (h : n < 256 ^ k) : leVal (natToLE k n) = n := by
  induction k generalizing n with
  | zero =>
    simp [natToLE, leVal]
    omega
  | succ k ih =>
    have hd : n / 256 < 256 ^ k := by
      rw [Nat.div_lt_iff_lt_mul (by norm_num)]
      calc n < 256 ^ (k + 1) := h
        _ = 256 ^ k * 256 := by rw [Nat.pow_succ]
    simp only [natToLE, leVal, List.foldr] at *
    rw [ih (n / 256) hd]
    omega

theorem cycles_req (N : Nat) :
    (state_after_cycles N).socket.map (fun k => k.request_number) = some (N % 256) := by
  induction N with
  | zero => decide
  | succ N ih =>
    rcases hs : (state_after_cycles N).socket with _ | sock
    · rw [hs] at ih; simp at ih
    · rw [hs] at ih
      simp only [Option.map_some'] at ih
      have hr : sock.request_number = N % 256 := by
        injection ih
      simp only [state_after_cycles]
      rw [hs]
      simp only []
      rw [handshake_read _ sock [] hs]
      simp only [Option.map_some']
      rw [hr]
      congr 1
      omega

/-- Claim C1 (amended): `run_lua_code` only sends the request and returns
Python's `None` to its caller; the success payload of an exec response is
consumed by the background reader's `parse_packet`, which returns it to
`read_loop` (where it is discarded) after emitting it as a log message.
In particular it is NOT returned from `run_lua_code`. -/
theorem c1_exec_payload_goes_to_reader :
    (∀ st code, st.socket.isSome = true → (utf8_encode code).length < 2 ^ 32 →
      (run_lua_code st code none).1 = .ok none) ∧
    (∀ st sock payload rest, st.socket = some sock → payload.length < 2 ^ 24 →
      (read_response st (3 :: sock.request_number :: 1 ::
          (natToLE 3 payload.length ++ (payload ++ rest)))).1 = .ok (some payload)) := by
  constructor
  · exact fun st code hs hl => run_lua_ok st code hs hl
  · intro st sock payload rest hs hp
    rw [exec_success_read st sock payload rest hs hp]

/-- Witness for C1's amended theorem at the spec scenario: code
`return 1+1`, reply `successFlag=1`, length=1, payload `2`. -/
theorem c1_witness :
    (run_lua_code conn0 "return 1+1" none).1 = .ok none ∧
    (read_response conn0 [3, 0, 1, 1, 0, 0, 50]).1 = .ok (some [50]) := by
  refine ⟨c1_exec_payload_goes_to_reader.1 conn0 "return 1+1" (by decide) (by decide), ?_⟩
  exact c1_exec_payload_goes_to_reader.2 conn0 ⟨1, 4096, 0⟩ [50] [] rfl (by decide)

/-- Counterexample to Claim C1 as stated: in the spec scenario
(`return 1+1`, server replies `successFlag=1`, length=1, payload `2`),
`run_lua_code` returns `None`, not the bytes `2`; the payload is only
seen by the reader's `read_response`. -/
theorem c1_counterexample :
    (run_lua_code conn0 "return 1+1" none).1 = .ok none ∧
    ¬ (run_lua_code conn0 "return 1+1" none).1 = .ok (some (utf8_encode "2")) ∧
    (read_response (run_lua_code conn0 "return 1+1" none).2 c1_reply).1 =
      .ok (some (utf8_encode "2")) := by decide

/-- Claim C2 (amended): on an exec response with `successFlag=0` the
background reader raises nothing (`read_response` returns normally, with
the 4 header bytes as the unreassigned `response` value), appends the
fixed message "Running lua code throw an error. Check your code." to the
pending queue (the payload text is read but discarded), and the session
stays connected. -/
theorem c2_failure_is_logged_not_raised :
    ∀ st sock payload rest, st.socket = some sock → payload.length < 2 ^ 24 →
      (read_response st (3 :: sock.request_number :: 0 ::
          (natToLE 3 payload.length ++ (payload ++ rest)))).1 =
        .ok (some (0 :: natToLE 3 payload.length)) ∧
      (read_response st (3 :: sock.request_number :: 0 ::
          (natToLE 3 payload.length ++ (payload ++ rest)))).2.1.pending_messages =
        st.pending_messages ++ ["Running lua code throw an error. Check your code."] ∧
      (read_response st (3 :: sock.request_number :: 0 ::
          (natToLE 3 payload.length ++ (payload ++ rest)))).2.1.socket.isSome = true := by
  intro st sock payload rest hs hp
  rw [exec_fail_read st sock payload rest hs hp]
  refine ⟨rfl, ?_, ?_⟩
  · simp only [emit_new_message]
    split <;> rfl
  · rw [emit_socket]
    rfl

/-- Witness for C2's amended theorem at a concrete failure reply. -/
theorem c2_witness :
    (read_response conn0 (3 :: 0 :: 0 :: (natToLE 3 2 ++ ([120, 121] ++ [])))).1 =
      .ok (some (0 :: natToLE 3 2)) :=
  (c2_failure_is_logged_not_raised conn0 ⟨1, 4096, 0⟩ [120, 121] [] rfl (by decide)).1

/-- Counterexample to Claim C2 as stated: for the stub reply
`successFlag=0`, payload `syntax error`, the `run_lua_code` call does not
fail at all (it already returned `.ok none`), the reader's result is
`.ok`, no `RemoteExecutionError` exists, and the logged message is the
fixed string, not the payload text. -/
theorem c2_counterexample :
    (run_lua_code conn0 "x =" none).1 = .ok none ∧
    (read_response (run_lua_code conn0 "x =" none).2 c2_reply).1 = .ok (some [0, 12, 0, 0]) ∧
    (read_response (run_lua_code conn0 "x =" none).2 c2_reply).2.1.pending_messages =
      ["Running lua code throw an error. Check your code."] ∧
    is_connected (read_response (run_lua_code conn0 "x =" none).2 c2_reply).2.1 = true := by
  decide

/-- Claim C3 (amended): a successful fresh `connect` always leaves the
socket holder with its constructor values `api_version = 1` and
`buffer_size = 4096` — the probe reply is parsed into local variables
that are only logged, never stored.  In the `3,4096,true` scenario
`connect` returns true with stored holder `(1, 4096, request_number 2)`. -/
theorem c3_probe_values_not_stored :
    (∀ st s, st.socket = none → (connect st s).1 = .ok true →
      (connect st s).2.1.socket.map sockView = some (1, 4096)) ∧
    (connect fresh_state c3_stream).1 = .ok true ∧
    (connect fresh_state c3_stream).2.1.socket =
      some { api_version := 1, buffer_size := 4096, request_number := 2 } := by
  exact ⟨fun st s hno h => connect_true_view st s hno h, by decide, by decide⟩

/-- Witness for C3's amended theorem at the `3,4096,true` scenario. -/
theorem c3_witness :
    (connect fresh_state c3_stream).2.1.socket.map sockView = some (1, 4096) :=
  c3_probe_values_not_stored.1 fresh_state c3_stream rfl (by decide)

/-- Counterexample to Claim C3 as stated: after a connect whose probe
reply is `3,4096,true`, `connect` returns true but the stored
`api_version` is 1, not 3. -/
theorem c3_counterexample :
    (connect fresh_state c3_stream).1 = .ok true ∧
    (connect fresh_state c3_stream).2.1.socket.map (fun k => k.api_version) = some 1 ∧
    ¬ (connect fresh_state c3_stream).2.1.socket.map (fun k => k.api_version) = some 3 := by
  decide

/-- Claim C4 (amended): a response whose embedded request number
differs from the expected counter always raises `RuntimeError` (the
spec's `FramingError`); during `connect` the error is caught, the socket
cleared (session Disconnected) and false returned — but when the
background reader sees the mismatch the exception escapes `read_loop`
uncaught and the session state is left unchanged, still connected. -/
theorem c4_mismatch_paths :
    (∀ st sock b rest, st.socket = some sock → b ≠ sock.request_number →
      check_header st (b :: rest) = (.error (.runtimeError "request number mismatch"), rest)) ∧
    (∀ st b rest, st.socket = none → b ≠ 0 →
      (connect st (1 :: b :: rest)).1 = .ok false ∧
      (connect st (1 :: b :: rest)).2.1.socket = none ∧
      (connect st (1 :: b :: rest)).2.1.socket_error =
        some (.runtimeError "request number mismatch")) ∧
    (∀ st sock b rest, st.socket = some sock → b ≠ sock.request_number →
      read_loop_step st (3 :: b :: rest) =
        .crashed (.runtimeError "request number mismatch") st rest) :=
  ⟨check_header_mismatch, connect_mismatch, read_loop_mismatch⟩

/-- Witness for C4's amended theorem at concrete mismatching inputs. -/
theorem c4_witness :
    check_header conn0 [9] = (.error (.runtimeError "request number mismatch"), []) ∧
    (connect fresh_state [1, 9]).1 = .ok false ∧
    read_loop_step conn0 [3, 9] = .crashed (.runtimeError "request number mismatch") conn0 [] := by
  refine ⟨c4_mismatch_paths.1 conn0 ⟨1, 4096, 0⟩ 9 [] rfl (by decide),
          (c4_mismatch_paths.2.1 fresh_state 9 [] rfl (by decide)).1,
          c4_mismatch_paths.2.2 conn0 ⟨1, 4096, 0⟩ 9 [] rfl (by decide)⟩

/-- Counterexample to Claim C4 as stated: a mismatched exec response
observed by the reader task crashes it with `RuntimeError`, yet the
session does NOT transition to Disconnected — `is_connected` stays
true. -/
theorem c4_counterexample :
    read_loop_step conn0 [3, 7] = .crashed (.runtimeError "request number mismatch") conn0 [] ∧
    is_connected conn0 = true := by decide

/-- Claim C5 (amended): `connect` returns false — clearing the socket
and recording the error — exactly for the caught exception classes
(OSError, TimeoutError, struct.error, UnicodeError, RuntimeError); any
exception escaping `connect` to its caller is outside that set (e.g.
IndexError on EOF, ValueError on a probe reply without two commas,
AttributeError on a None response). -/
theorem c5_connect_error_discipline :
    ∀ st s,
      (∀ e, (connect st s).1 = .error e → e.isCaught = false) ∧
      ((connect st s).1 = .ok false →
        (connect st s).2.1.socket = none ∧
        (∃ e, e.isCaught = true ∧ (connect st s).2.1.socket_error = some e)) := by
  intro st s
  rcases connect_cases st s with h | ⟨h1, h2, h3⟩ | ⟨e, he, hc⟩
  · constructor
    · intro e hee
      rw [h] at hee
      simp at hee
    · intro hf
      rw [h] at hf
      simp at hf
  · constructor
    · intro e hee
      rw [h1] at hee
      simp at hee
    · intro _
      exact ⟨h2, h3⟩
  · constructor
    · intro e2 hee
      rw [he] at hee
      injection hee with h4
      subst h4
      exact hc
    · intro hf
      rw [he] at hf
      simp at hf

/-- Witness for C5's amended theorem: the EOF run escapes with
IndexError (uncaught class), and a mismatched-ack run returns false with
the socket cleared. -/
theorem c5_witness :
    PyError.isCaught .indexError = false ∧
    (connect fresh_state [1, 9]).2.1.socket = none := by
  refine ⟨(c5_connect_error_discipline fresh_state []).1 .indexError (by decide),
          ((c5_connect_error_discipline fresh_state [1, 9]).2 (by decide)).1⟩

/-- Counterexample to Claim C5 as stated: a server that closes the
connection immediately (EOF before the handshake ack) makes `connect`
raise IndexError to its caller, with the partially built socket still
referenced and no error recorded. -/
theorem c5_counterexample :
    (connect fresh_state []).1 = .error .indexError ∧
    (connect fresh_state []).2.1.socket.isSome = true ∧
    (connect fresh_state []).2.1.socket_error = none := by decide

/-- Claim C6 (code bug): a single LogMessage arriving with an empty
pending queue is appended to the queue, but NO flush notification is
armed — `emit_new_message` computes `start_timer` as "queue non-empty
BEFORE the append", so the sink never receives the `onLogLine` flush the
claim (and the GUI) expects. -/
theorem c6_log_message_no_flush :
    (read_response conn0 c6_stream).1 = .ok (some (utf8_encode "hello")) ∧
    (read_response conn0 c6_stream).2.1.pending_messages =
      ["Log: " ++ str_of_bytes (utf8_encode "hello")] ∧
    (read_response conn0 c6_stream).2.1.flush_timers_armed = 0 := by decide

/-- Claim C7 (confirmed): the request counter starts at 0 when
`connect` builds the socket holder, is incremented by exactly 1 mod 256
after each fully-consumed handshake ack and after each exec response,
and after N request/response cycles equals `N mod 256`, hence always
lies in [0, 255]. -/
theorem c7_request_counter :
    (connect fresh_state []).2.1.socket =
      some { api_version := 1, buffer_size := 4096, request_number := 0 } ∧
    (∀ st sock rest, st.socket = some sock →
      (read_response st (1 :: sock.request_number :: rest)).2.1.socket =
        some { sock with request_number := (sock.request_number + 1) % 256 }) ∧
    (∀ st sock payload rest, st.socket = some sock → payload.length < 2 ^ 24 →
      (read_response st (3 :: sock.request_number :: 1 ::
          (natToLE 3 payload.length ++ (payload ++ rest)))).2.1.socket =
        some { sock with request_number := (sock.request_number + 1) % 256 }) ∧
    (∀ N, (state_after_cycles N).socket.map (fun k => k.request_number) = some (N % 256)) ∧
    (∀ N r, (state_after_cycles N).socket.map (fun k => k.request_number) = some r →
      r < 256) := by
  refine ⟨by decide, ?_, ?_, cycles_req, ?_⟩
  · intro st sock rest hs
    rw [handshake_read st sock rest hs]
  · intro st sock payload rest hs hp
    rw [exec_success_read st sock payload rest hs hp]
    rw [emit_socket]
  · intro N r h
    have h2 := (cycles_req N).symm.trans h
    injection h2 with h3
    omega

/-- Witness for C7 at concrete single-cycle inputs. -/
theorem c7_witness :
    (read_response conn0 [1, 0]).2.1.socket =
      some { api_version := 1, buffer_size := 4096, request_number := 1 } ∧
    (read_response conn0 [3, 0, 1, 1, 0, 0, 50]).2.1.socket =
      some { api_version := 1, buffer_size := 4096, request_number := 1 } ∧
    (3 : Nat) < 256 := by
  refine ⟨c7_request_counter.2.1 conn0 ⟨1, 4096, 0⟩ [] rfl,
          c7_request_counter.2.2.1 conn0 ⟨1, 4096, 0⟩ [50] [] rfl (by decide),
          c7_request_counter.2.2.2.2 3 3 (by decide)⟩

/-- Claim C8 (code bug): when `disconnect()` runs while the keep-alive
task sleeps, the loop does terminate within the interval, but not via
its `is_connected` condition: the body dereferences the cleared socket
(`self._socket.writer`) outside the `try` block and dies with an
uncaught AttributeError. -/
theorem c8_keep_alive_crash :
    is_connected (disconnect conn0) = false ∧
    keep_alive_after_sleep (disconnect conn0) none =
      .crashed (.attributeError "writer") (disconnect conn0) ∧
    PyError.isCaught (.attributeError "writer") = false := by decide

/-- Claim C9 (confirmed): the RemoteExec request encoding is exactly
`[type=3]`, the 4-byte little-endian length of the UTF-8 code, then the
UTF-8 bytes; Handshake is `[type=1][interestByte]` and KeepAlive the
single byte `[type=4]`. -/
theorem c9_packet_layout :
    (∀ code, (utf8_encode code).length < 2 ^ 32 →
      build_packet .PACKET_REMOTE_LUA_EXEC (some (utf8_encode code)) =
        .ok (3 :: (natToLE 4 (utf8_encode code).length ++ utf8_encode code)) ∧
      (natToLE 4 (utf8_encode code).length).length = 4 ∧
      leVal (natToLE 4 (utf8_encode code).length) = (utf8_encode code).length) ∧
    (∀ interest, build_packet .PACKET_HANDSHAKE (some [interest]) = .ok [1, interest]) ∧
    build_packet .PACKET_KEEP_ALIVE none = .ok [4] := by
  refine ⟨?_, fun interest => rfl, rfl⟩
  intro code hl
  have h4 : (utf8_encode code).length < 256 ^ 4 := by
    calc (utf8_encode code).length < 2 ^ 32 := hl
      _ = 256 ^ 4 := by norm_num
  have h4lit : (utf8_encode code).length < 4294967296 := by
    calc (utf8_encode code).length < 2 ^ 32 := hl
      _ = 4294967296 := by norm_num
  refine ⟨?_, natToLE_length 4 _, leVal_natToLE 4 _ h4⟩
  simp [build_packet, int_to_bytes_le, h4lit, PacketType.value]

/-- Witness for C9 at the one-byte program `x`. -/
theorem c9_witness :
    build_packet .PACKET_REMOTE_LUA_EXEC (some (utf8_encode "x")) = .ok [3, 1, 0, 0, 0, 120] ∧
    leVal (natToLE 4 (utf8_encode "x").length) = 1 ∧
    build_packet .PACKET_HANDSHAKE (some [1]) = .ok [1, 1] ∧
    build_packet .PACKET_KEEP_ALIVE none = .ok [4] := by
  refine ⟨?_, ?_, c9_packet_layout.2.1 1, c9_packet_layout.2.2⟩
  · rw [(c9_packet_layout.1 "x" (by decide)).1]
    decide
  · rw [(c9_packet_layout.1 "x" (by decide)).2.2]
    decide

/-- Claim C10 (confirmed): calling `run_lua_code` with no socket held
raises AttributeError (from `self._socket.writer`), a class outside the
except clause's tuple, so it escapes uncaught with the state unchanged:
no error is recorded and `disconnect` is not invoked. -/
theorem c10_run_disconnected_attribute_error :
    ∀ st code de, st.socket = none →
      run_lua_code st code de = (.error (.attributeError "writer"), st) ∧
      PyError.isCaught (.attributeError "writer") = false := by
  intro st code de h
  constructor
  · simp [run_lua_code, h]
  · rfl

/-- Witness for C10 at a concrete disconnected state. -/
theorem c10_witness :
    run_lua_code fresh_state "x" none = (.error (.attributeError "writer"), fresh_state) :=
  (c10_run_disconnected_attribute_error fresh_state "x" none rfl).1
